import Mathlib

/-!
Shallow embedding of the core pipeline of the wikibot backend
(`app/main.py`, `app/services/query_processor.py`, `app/services/wiki_search.py`,
`app/services/content_analyzer.py`, `app/services/response_generator.py`).

Python strings are modelled as Lean `String`s; the heavy string work is done on
`List Char` with hand-rolled, kernel-reducible helpers mirroring the Python
string/regex operations the code uses.  Floats are modelled as `ℚ`.  The external
TF-IDF cosine-similarity engine (scikit-learn) is a parameter; `none` models an
exception raised inside the engine (caught by the code's `except` blocks).
-/

namespace WikiBot

/-- The character class of Python's regex `\s` and of `str.split()` /
`str.strip()` (ASCII part). -/
def pyIsSpace (c : Char) : Bool :=
  c = ' ' || c = '\t' || c = '\n' || c = '\r' || c = '\x0b' || c = '\x0c'

/-- `isPref pat l`: `pat` is a prefix of `l` (used for `str.startswith` and
anchored regex matches). -/
def isPref : List Char → List Char → Bool
  | [], _ => true
  | _ :: _, [] => false
  | a :: as, b :: bs => a = b && isPref as bs

/-- `hasRun pat l`: `pat` occurs contiguously inside `l`; models Python's
`pat in l` substring test. -/
def hasRun (pat : List Char) : List Char → Bool
  | [] => pat.isEmpty
  | c :: t => isPref pat (c :: t) || hasRun pat t

/-- Substring containment on strings: Python `needle in hay`. -/
def strContains (hay needle : String) : Bool :=
  hasRun needle.data hay.data

/-- Split at every character satisfying `p`, keeping empty pieces
(Python `re.split` on a single-character class). -/
def splitWhen (p : Char → Bool) : List Char → List (List Char)
  | [] => [[]]
  | c :: rest =>
    if p c then [] :: splitWhen p rest
    else
      match splitWhen p rest with
      | [] => [[c]]
      | w :: ws => (c :: w) :: ws

/-- Split on the two-character separator `"\n\n"`, left to right,
non-overlapping: Python `content.split('\n\n')`. -/
def splitNlNl : List Char → List (List Char)
  | [] => [[]]
  | '\n' :: '\n' :: rest => [] :: splitNlNl rest
  | c :: rest =>
    match splitNlNl rest with
    | [] => [[c]]
    | w :: ws => (c :: w) :: ws

/-- `sep.join(words)`. -/
def joinSep (sep : List Char) : List (List Char) → List Char
  | [] => []
  | [w] => w
  | w :: ws => w ++ sep ++ joinSep sep ws

/-- Python `str.strip()` on a character list. -/
def trimCs (l : List Char) : List Char :=
  ((l.dropWhile pyIsSpace).reverse.dropWhile pyIsSpace).reverse

/-- Python `str.strip()`. -/
def trimStr (s : String) : String :=
  String.mk (trimCs s.data)

/-- Python `str.lower()` (ASCII). -/
def lowerStr (s : String) : String :=
  String.mk (s.data.map Char.toLower)

/-- Python `s.split()` on a character list: split on whitespace runs,
dropping empty pieces. -/
def pyWordsC (l : List Char) : List (List Char) :=
  (splitWhen pyIsSpace l).filter (fun w => !w.isEmpty)

/-- Python `s.split()`. -/
def pyWords (s : String) : List String :=
  (pyWordsC s.data).map String.mk

/-- `len(s.split())`, the word count used throughout the pipeline. -/
def wordCount (s : String) : Nat :=
  (pyWordsC s.data).length

/-- `re.sub(r'\s+', ' ', s).strip()`: collapse each whitespace run to a single
space and trim; equal to `' '.join(s.split())`. -/
def cleanWs (s : String) : String :=
  String.mk (joinSep [' '] (pyWordsC s.data))


/-! ## `app/services/query_processor.py` -/

namespace QueryProcessor

/-- Head of the remainder is a whitespace character (the `\s+` obligation after an
anchored alternation). -/
def headIsSpace : List Char → Bool
  | [] => false
  | c :: _ => pyIsSpace c

/-- `re.match(r'^(alt1|alt2|...)\s+', q)` succeeds: some alternative is a prefix of
`q` followed by at least one whitespace character (the regex engine backtracks over
the alternation, so any alternative may provide the match). -/
def matchesPrefixPat (alts : List String) (q : String) : Bool :=
  alts.any fun a => isPref a.data q.data && headIsSpace (q.data.drop a.data.length)

/-- The `DEFINITION` alternation of `_determine_question_type`. -/
def definitionAlts : List String :=
  ["what is", "define", "explain", "tell me about", "describe", "what are", "what does"]

/-- The `FACTUAL` alternation of `_determine_question_type`. -/
def factualAlts : List String :=
  ["what", "when", "where", "who", "how", "why"]

/-- The `PROCESS` alternation of `_determine_question_type`. -/
def processAlts : List String :=
  ["how to", "how do", "steps to", "process of", "how does", "how can"]

/-- The `EXPLANATION` alternation of `_determine_question_type`. -/
def explanationAlts : List String :=
  ["why", "explain why", "reason for", "what causes", "what makes",
   "let me explain", "explain"]

/-- The `COMPARISON` alternation of `_determine_question_type`. -/
def comparisonAlts : List String :=
  ["compare", "difference between", "versus", "vs",
   "similarities between", "differences between"]

/-- The ordered pattern table of `_determine_question_type`; Python dict iteration
order is insertion order, so the checking order is the literal order below. -/
def questionPatterns : List (String × List String) :=
  [("DEFINITION", definitionAlts),
   ("FACTUAL", factualAlts),
   ("PROCESS", processAlts),
   ("EXPLANATION", explanationAlts),
   ("COMPARISON", comparisonAlts)]

/-- `QueryProcessor._determine_question_type`. -/
def determine_question_type (query : String) : String :=
  let q := lowerStr query
  match questionPatterns.find? (fun p => matchesPrefixPat p.2 q) with
  | some p => p.1
  | none => "EXPLANATION"

/-- One pass of the entity loop of `_extract_entities`: keep `word` when the POS
tag starts with `NN`, the word is not a stopword, and it is longer than 2
characters (in the `and`-chain order of the source). -/
def extractLoop (stop_words : List String) : List (String × String) → List String
  | [] => []
  | (word, tag) :: rest =>
    if isPref "NN".data tag.data && !stop_words.contains word
        && decide (word.length > 2) then
      word :: extractLoop stop_words rest
    else extractLoop stop_words rest

/-- `QueryProcessor._extract_entities`, parameterized by the NLTK stopword set and
by the external tokenizer/tagger (`pos_tag(word_tokenize(query.lower()))`). -/
def extract_entities (stop_words : List String)
    (tagger : String → List (String × String)) (query : String) : List String :=
  extractLoop stop_words (tagger (lowerStr query))

/-- The alternation of the `re.sub` stripping leading question phrases in
`_generate_alternative_phrasings`, in the source's order. -/
def leadingPhrases : List String :=
  ["what is", "define", "explain", "tell me about", "how to", "how do", "steps to",
   "process of", "why", "explain why", "reason for", "compare", "difference between",
   "versus", "vs", "let me explain"]

/-- `re.sub(r'^(p1|...|pn)\s+', '', query)`: remove the first alternative that is a
prefix of `query` followed by whitespace, together with the greedy whitespace run
after it. -/
def stripLeadingPhrase (query : String) : String :=
  match leadingPhrases.find?
      (fun a => isPref a.data query.data && headIsSpace (query.data.drop a.data.length)) with
  | some a => String.mk ((query.data.drop a.data.length).dropWhile pyIsSpace)
  | none => query

/-- `QueryProcessor._generate_alternative_phrasings`. -/
def generate_alternative_phrasings (query question_type : String) : List String :=
  let base_query := stripLeadingPhrase query
  if question_type = "DEFINITION" then
    ["what is " ++ base_query, "define " ++ base_query, "explain " ++ base_query,
     "describe " ++ base_query, "what are the characteristics of " ++ base_query]
  else if question_type = "FACTUAL" then
    ["what is " ++ base_query, "information about " ++ base_query,
     "details about " ++ base_query, "tell me about " ++ base_query,
     "what are the facts about " ++ base_query]
  else if question_type = "PROCESS" then
    ["how to " ++ base_query, "steps to " ++ base_query, "process of " ++ base_query,
     "how does " ++ base_query ++ " work", "what is the process of " ++ base_query]
  else if question_type = "EXPLANATION" then
    ["explain " ++ base_query, "tell me about " ++ base_query,
     "what is " ++ base_query, "describe " ++ base_query,
     "what are the key aspects of " ++ base_query]
  else if question_type = "COMPARISON" then
    ["compare " ++ base_query, "differences between " ++ base_query,
     "similarities between " ++ base_query, "how does " ++ base_query ++ " compare",
     "what are the differences in " ++ base_query]
  else []

/-- The fixed 3-part response template attached to a `ProcessedQuery`. -/
structure ResponseTemplate where
  intro : String
  key_points : String
  context : String
deriving DecidableEq

/-- `QueryProcessor.response_templates` (insertion order preserved). -/
def response_templates : List (String × ResponseTemplate) :=
  [("DEFINITION", ⟨"Here\x27s what I found about \x7bentity\x7d:", "Key points:",
                   "Additional context:"⟩),
   ("FACTUAL", ⟨"Here\x27s what I found:", "Key points:", "Additional information:"⟩),
   ("PROCESS", ⟨"Here\x27s how it works:", "Key steps:", "Important notes:"⟩),
   ("EXPLANATION", ⟨"Here\x27s what I found about \x7bentity\x7d:", "Key points:",
                    "Additional context:"⟩),
   ("COMPARISON", ⟨"Here\x27s the comparison:", "Key differences:",
                   "Additional context:"⟩)]

/-- The dict returned by `QueryProcessor.process`. -/
structure ProcessedQuery where
  original_query : String
  cleaned_query : String
  question_type : String
  entities : List String
  alternative_phrasings : List String
  response_template : ResponseTemplate
deriving DecidableEq

/-- `QueryProcessor.process`, parameterized by the stopword set and the external
tokenizer/tagger. -/
def process (stop_words : List String) (tagger : String → List (String × String))
    (query : String) : ProcessedQuery :=
  let cleaned_query := trimStr (lowerStr query)
  let question_type := determine_question_type cleaned_query
  let entities := extract_entities stop_words tagger cleaned_query
  let alternative_phrasings := generate_alternative_phrasings cleaned_query question_type
  let response_template :=
    (response_templates.lookup question_type).getD
      ⟨"Here\x27s what I found about \x7bentity\x7d:", "Key points:", "Additional context:"⟩
  { original_query := query, cleaned_query := cleaned_query,
    question_type := question_type, entities := entities,
    alternative_phrasings := alternative_phrasings,
    response_template := response_template }


end QueryProcessor

/-! ## `app/services/wiki_search.py`

The TF-IDF vectorizer / cosine-similarity engine is an external capability: it is
modelled as `sim : String → List String → Option (List ℚ)` taking the query and
the document list handed to `fit_transform` and returning one similarity per
document; `none` models an exception inside the engine, caught by the enclosing
`except` block of each method. -/

namespace WikipediaSearch

/-- A hit collected by `_perform_search` (`{"title", "pageid", "relevance"}`). -/
structure SearchResult where
  title : String
  pageid : Nat
  relevance : ℚ
deriving DecidableEq

/-- Descending order on `relevance`: the sort key `lambda x: -x["relevance"]`. -/
def relDesc (a b : SearchResult) : Prop := b.relevance ≤ a.relevance

instance : DecidableRel relDesc := fun a b =>
  inferInstanceAs (Decidable (b.relevance ≤ a.relevance))

instance : IsTotal SearchResult relDesc := ⟨fun a b => le_total b.relevance a.relevance⟩

instance : IsTrans SearchResult relDesc := ⟨fun _ _ _ h1 h2 => le_trans h2 h1⟩

/-- `sorted(results, key=lambda x: -x["relevance"])`.  Python's `sorted` is a
stable sort; a stable sort by a total preorder is uniquely determined, so the
stable `insertionSort` computes the same list. -/
def sortByRelevance (results : List SearchResult) : List SearchResult :=
  List.insertionSort relDesc results

/-- The `seen`-set loop of `_deduplicate_and_sort`: keep the first occurrence of
each title, in list order. -/
def dedupeLoop : List SearchResult → List String → List SearchResult
  | [], _ => []
  | r :: rest, seen =>
    if r.title ∈ seen then dedupeLoop rest seen
    else r :: dedupeLoop rest (r.title :: seen)

/-- `WikipediaSearch._deduplicate_and_sort`. -/
def deduplicate_and_sort (results : List SearchResult) : List SearchResult :=
  dedupeLoop (sortByRelevance results) []

/-- Candidate selection performed by `search`: the `_deduplicate_and_sort` output
of `_perform_search`, truncated by `search_results[:3]`. -/
def selectCandidates (collected : List SearchResult) : List SearchResult :=
  (deduplicate_and_sort collected).take 3

/-- `WikipediaSearch._calculate_relevance`; returns `0.0` when the vectorizer
raises (the method's own `except` branch). -/
def calculate_relevance (sim : String → List String → Option (List ℚ))
    (content query : String) : ℚ :=
  let c := cleanWs content
  let q := cleanWs query
  match sim q [c] with
  | none => 0
  | some sims =>
    let similarity := sims.headD 0
    let content_length : ℚ := (wordCount c : ℚ)
    let length_factor := min 1 (content_length / 200)
    let query_terms := (pyWords (lowerStr q)).dedup
    let content_lower := lowerStr c
    let term_matches : ℚ := (query_terms.countP (fun t => strContains content_lower t) : ℚ)
    let term_boost := 1 + term_matches * (1 / 5)
    let relevance := similarity * (2 / 5) + length_factor * (3 / 10) + term_boost * (3 / 10)
    min 1 relevance

/-- `np.argsort(sims)[-k:][::-1]`: indices of the `k` largest similarities, taken
from an ascending argsort, last `k`, reversed. -/
def argsortTopK (k : Nat) (sims : List ℚ) : List Nat :=
  let idx := List.range sims.length
  let sorted := List.insertionSort (fun i j => sims.getD i 0 ≤ sims.getD j 0) idx
  sorted.reverse.take k

/-- `[p.strip() for p in content.split('\n\n') if p.strip()]`. -/
def paragraphsOf (content : String) : List String :=
  ((splitNlNl content.data).map (fun p => String.mk (trimCs p))).filter (fun p => p ≠ "")

/-- Terminal punctuation of the sentence-splitting regex `[.!?]+`. -/
def isTermPunct (c : Char) : Bool := c = '.' || c = '!' || c = '?'

/-- `[s.strip() for s in re.split(r'[.!?]+', content) if s.strip() and len(s.split()) > 5]`
(splitting on single punctuation characters instead of runs only introduces empty
pieces, which the `s.strip()` filter removes either way). -/
def sentencesOf (content : String) : List String :=
  ((splitWhen isTermPunct content.data).map (fun s => String.mk (trimCs s))).filter
    (fun s => s ≠ "" && decide (wordCount s > 5))

/-- `[docs[i] for i in argsortTopK k sims]`. -/
def rankTop (k : Nat) (sims : List ℚ) (docs : List String) : List String :=
  (argsortTopK k sims).map (fun i => docs.getD i "")

/-- `'. '.join(top_sentences).strip() + '.'`. -/
def sentenceJoin (tops : List String) : String :=
  String.mk (trimCs (joinSep ['.', ' '] (tops.map String.data))) ++ "."

/-- `'\n\n'.join(top_paragraphs)`. -/
def paragraphJoin (tops : List String) : String :=
  String.mk (joinSep ['\n', '\n'] (tops.map String.data))

/-- `WikipediaSearch._extract_relevant_content`; on a vectorizer exception the
method's `except` branch returns the original content. -/
def extract_relevant_content (sim : String → List String → Option (List ℚ))
    (content query : String) : String :=
  let paragraphs := paragraphsOf content
  if paragraphs.isEmpty then content
  else
    match sim query paragraphs with
    | none => content
    | some sims =>
      let top_paragraphs := rankTop 3 sims paragraphs
      if ((top_paragraphs.map wordCount).sum < 100) then
        let sentences := sentencesOf content
        if sentences.isEmpty then paragraphJoin top_paragraphs
        else
          match sim query sentences with
          | none => content
          | some ssims => sentenceJoin (rankTop 5 ssims sentences)
      else paragraphJoin top_paragraphs

/-- A fetched article entering `_process_results`
(`{"title", "pageid", "relevance", "content", "url"}`). -/
structure FetchedPage where
  title : String
  pageid : Nat
  relevance : ℚ
  content : String
  url : String
deriving DecidableEq

/-- The dict appended by `_process_results` (`{**result, "content": ...,
"confidence": relevance}`). -/
structure ScoredPage where
  title : String
  pageid : Nat
  relevance : ℚ
  content : String
  url : String
  confidence : ℚ
deriving DecidableEq

/-- Descending order on `confidence`: the sort of `_process_results`
(`key=lambda x: x["confidence"], reverse=True`). -/
def confDesc (a b : ScoredPage) : Prop := b.confidence ≤ a.confidence

instance : DecidableRel confDesc := fun a b =>
  inferInstanceAs (Decidable (b.confidence ≤ a.confidence))

instance : IsTotal ScoredPage confDesc := ⟨fun a b => le_total b.confidence a.confidence⟩

instance : IsTrans ScoredPage confDesc := ⟨fun _ _ _ h1 h2 => le_trans h2 h1⟩

/-- `WikipediaSearch._process_results`: score each fetched page, keep it only when
the relevance reaches `0.3`, replace its content with the extracted excerpt, and
sort the survivors by descending confidence (stable, like Python's `sorted`). -/
def process_results (sim : String → List String → Option (List ℚ))
    (results : List FetchedPage) (original_query : String) : List ScoredPage :=
  let processed := results.filterMap fun r =>
    let relevance := calculate_relevance sim r.content original_query
    if 3 / 10 ≤ relevance then
      some { title := r.title, pageid := r.pageid, relevance := r.relevance,
             content := extract_relevant_content sim r.content original_query,
             url := r.url, confidence := relevance }
    else none
  List.insertionSort confDesc processed

end WikipediaSearch

/-! ## `app/services/content_analyzer.py` (topic classification) -/

namespace ContentAnalyzer

/-- The `tool_terms` list of `_determine_topic_type`. -/
def tool_terms : List String :=
  ["tool", "device", "instrument", "machine", "apparatus",
   "calculator", "abacus", "compass", "ruler", "protractor",
   "used for", "purpose", "function", "operation"]

/-- The `science_terms` list of `_determine_topic_type`. -/
def science_terms : List String :=
  ["species", "genus", "family", "animal", "plant", "organism",
   "theory", "process", "phenomenon", "principle", "law", "concept",
   "biology", "chemistry", "physics", "science", "scientific"]

/-- The `geo_terms` list of `_determine_topic_type`. -/
def geo_terms : List String :=
  ["country", "city", "mountain", "river", "lake", "ocean", "continent"]

/-- The `history_terms` list of `_determine_topic_type`. -/
def history_terms : List String :=
  ["war", "battle", "period", "era", "century", "dynasty", "revolution"]

/-- `any(term in topic_lower for term in terms) or any(term in content_lower for
term in terms)`. -/
def hitAny (terms : List String) (topic_lower content_lower : String) : Bool :=
  terms.any (fun t => strContains topic_lower t)
    || terms.any (fun t => strContains content_lower t)

/-- `ContentAnalyzer._determine_topic_type`. -/
def determine_topic_type (content main_topic : String) : String :=
  let content_lower := lowerStr content
  let topic_lower := lowerStr main_topic
  if hitAny tool_terms topic_lower content_lower then "TOOL"
  else if hitAny science_terms topic_lower content_lower then "SCIENCE"
  else if hitAny geo_terms topic_lower content_lower then "GEOGRAPHY"
  else if hitAny history_terms topic_lower content_lower then "HISTORY"
  else "GENERAL"

end ContentAnalyzer

/-! ## `app/services/response_generator.py` -/

namespace ResponseGenerator

/-- The dict produced by the content-analysis stage as `generate` reads it:
`main_content` is read with `.get` (absence behaves like empty), `confidence`
with a raising `[...]` access (a missing key raises `KeyError`, caught by the
method's `except`), `sources` with `.get("sources", [])`. -/
structure AnalyzedContent where
  main_content : String
  confidence : Option ℚ
  sources : Option (List String)
deriving DecidableEq

/-- The dict returned by `generate`. -/
structure FinalResponse where
  response : String
  confidence : ℚ
  sources : List String
deriving DecidableEq

/-- `ResponseGenerator.response_templates`: five identical
`"\x7bintro\x7d\n\n\x7bmain_content\x7d"` entries. -/
def response_templates : List (String × String) :=
  [("DEFINITION", "\x7bintro\x7d\n\n\x7bmain_content\x7d"),
   ("FACTUAL", "\x7bintro\x7d\n\n\x7bmain_content\x7d"),
   ("PROCESS", "\x7bintro\x7d\n\n\x7bmain_content\x7d"),
   ("EXPLANATION", "\x7bintro\x7d\n\n\x7bmain_content\x7d"),
   ("COMPARISON", "\x7bintro\x7d\n\n\x7bmain_content\x7d")]

/-- Single-pass `str.format` for the two placeholders of the templates above: each
`\x7bintro\x7d` / `\x7bmain_content\x7d` occurrence of the template is replaced by
the corresponding argument, and substituted text is never re-scanned. -/
def formatTpl : List Char → String → String → List Char
  | [], _, _ => []
  | '\x7b' :: 'i' :: 'n' :: 't' :: 'r' :: 'o' :: '\x7d' :: rest, intro, mc =>
    intro.data ++ formatTpl rest intro mc
  | '\x7b' :: 'm' :: 'a' :: 'i' :: 'n' :: '_' :: 'c' :: 'o' :: 'n' :: 't' :: 'e'
      :: 'n' :: 't' :: '\x7d' :: rest, intro, mc =>
    mc.data ++ formatTpl rest intro mc
  | c :: rest, intro, mc => c :: formatTpl rest intro mc

/-- The canned apology of the `main_content` guard. -/
def apologyNoInfo : FinalResponse :=
  { response := "I apologize, but I couldn\x27t find enough relevant information to answer your question.",
    confidence := 0, sources := [] }

/-- The canned apology of the `except` branch. -/
def apologyError : FinalResponse :=
  { response := "I apologize, but I encountered an error while processing your query. Please try again.",
    confidence := 0, sources := [] }

/-- `ResponseGenerator.generate`.  `analyzed_content` is `Option`-wrapped for the
`not analyzed_content` falsiness test; a `none` in the `confidence` field models
the `KeyError` of `analyzed_content["confidence"]`, which lands in the `except`
branch.  `processed_query` is the record built by `QueryProcessor.process`, whose
`question_type` and `cleaned_query` keys are always present. -/
def generate (analyzed_content : Option AnalyzedContent)
    (processed_query : QueryProcessor.ProcessedQuery) : FinalResponse :=
  match analyzed_content with
  | none => apologyNoInfo
  | some ac =>
    if ac.main_content = "" then apologyNoInfo
    else
      match ac.confidence with
      | none => apologyError
      | some confidence =>
        let query_type := processed_query.question_type
        let topic := processed_query.cleaned_query
        let template := (response_templates.lookup query_type).getD
          "\x7bintro\x7d\n\n\x7bmain_content\x7d"
        let intro := "Let me explain " ++ topic ++ ":"
        let response := String.mk (formatTpl template.data intro ac.main_content)
        { response := response, confidence := confidence,
          sources := ac.sources.getD [] }

end ResponseGenerator

/-! ## `app/main.py` (`handle_query`) -/

namespace Main

/-- An `HTTPException(status_code, detail)`. -/
structure HttpError where
  status_code : Nat
  detail : String
deriving DecidableEq

/-- `handle_query`, with the four pipeline stages abstracted as oracles (`none` /
`[]` model a falsy stage result).  The four guards and the four stage calls appear
in the source's order, so a blank query is rejected before any stage runs. -/
def handle_query {PQ SR AC FR : Type}
    (process_query : String → Option PQ)
    (search_wikipedia : PQ → List SR)
    (analyze_content : List SR → PQ → Option AC)
    (generate_response : AC → PQ → Option FR)
    (query : String) : Except HttpError FR :=
  if query = "" || trimStr query = "" then
    Except.error ⟨400, "Query cannot be empty"⟩
  else
    match process_query query with
    | none => Except.error ⟨400, "Failed to process query"⟩
    | some pq =>
      match search_wikipedia pq with
      | [] => Except.error ⟨404, "No relevant information found"⟩
      | sr :: srs =>
        match analyze_content (sr :: srs) pq with
        | none => Except.error ⟨500, "Failed to analyze content"⟩
        | some ac =>
          match generate_response ac pq with
          | none => Except.error ⟨500, "Failed to generate response"⟩
          | some fr => Except.ok fr

end Main

/-! ## Fixed concrete collaborators used by witnesses -/

/-- A trivially well-behaved similarity engine: every document scores `0`. -/
def simZero : String → List String → Option (List ℚ) :=
  fun _ docs => some (docs.map fun _ => 0)

/-- A small stopword set containing the function words of the C8 example. -/
def stopEx : List String := ["the", "on", "a", "is"]

/-- A tagger oracle producing the POS tagging of
`"the cat sat on the cat mat"` assumed by the C8 example (nouns `cat, cat, mat`). -/
def tagEx : String → List (String × String) := fun _ =>
  [("the", "DT"), ("cat", "NN"), ("sat", "VBD"), ("on", "IN"),
   ("the", "DT"), ("cat", "NN"), ("mat", "NN")]

/-- A concrete fetched article used by scoring witnesses. -/
def pageA : WikipediaSearch.FetchedPage :=
  { title := "T", pageid := 1, relevance := 1, content := "alpha beta.", url := "u" }

/-- The passage `_process_results` produces from `pageA` under `simZero`. -/
def pageAScored : WikipediaSearch.ScoredPage :=
  { title := "T", pageid := 1, relevance := 1,
    content := WikipediaSearch.extract_relevant_content simZero "alpha beta." "q",
    url := "u",
    confidence := WikipediaSearch.calculate_relevance simZero "alpha beta." "q" }

/-- A one-paragraph article whose only sentence has 7 words: short enough to
trigger the sentence-level fallback, long enough to survive the 6-word filter. -/
def sentW : String := "alpha beta gamma delta epsilon zeta eta."

/-! ## Theorems -/

/-- C3: for every query string whose trimmed form is empty, `handle_query` answers
the client error `400 "Query cannot be empty"`; the answer does not depend on the
retrieval, analysis or generation stages (they are universally quantified and
absent from the conclusion), so the failure occurs before any retrieval is
attempted. -/
theorem blank_query_rejected_before_retrieval {PQ SR AC FR : Type}
    (process_query : String → Option PQ) (search_wikipedia : PQ → List SR)
    (analyze_content : List SR → PQ → Option AC)
    (generate_response : AC → PQ → Option FR)
    (query : String) (h : trimStr query = "") :
    Main.handle_query process_query search_wikipedia analyze_content
        generate_response query
      = Except.error ⟨400, "Query cannot be empty"⟩ := by
  unfold Main.handle_query
  simp [h]

/-- C3 witness: the whitespace query `"   "` is rejected with the client error,
whatever the downstream stages would have returned. -/
theorem blank_query_rejected_before_retrieval_witness :
    trimStr "   " = "" ∧
    Main.handle_query (fun _ => some ()) (fun _ => ([] : List Unit))
        (fun _ _ => some ()) (fun _ _ => some ()) "   "
      = Except.error ⟨400, "Query cannot be empty"⟩ :=
  ⟨by decide,
   blank_query_rejected_before_retrieval _ _ _ _ "   " (by decide)⟩

/-- C4: `_determine_question_type` tests the prefix patterns in the fixed order
DEFINITION, FACTUAL, PROCESS, EXPLANATION, COMPARISON on the lowercased query;
the first pattern that matches wins, and EXPLANATION is returned when no pattern
matches. -/
theorem determine_question_type_ordered (q : String) :
    (QueryProcessor.matchesPrefixPat QueryProcessor.definitionAlts (lowerStr q) →
      QueryProcessor.determine_question_type q = "DEFINITION") ∧
    (¬ QueryProcessor.matchesPrefixPat QueryProcessor.definitionAlts (lowerStr q) →
      QueryProcessor.matchesPrefixPat QueryProcessor.factualAlts (lowerStr q) →
      QueryProcessor.determine_question_type q = "FACTUAL") ∧
    (¬ QueryProcessor.matchesPrefixPat QueryProcessor.definitionAlts (lowerStr q) →
      ¬ QueryProcessor.matchesPrefixPat QueryProcessor.factualAlts (lowerStr q) →
      QueryProcessor.matchesPrefixPat QueryProcessor.processAlts (lowerStr q) →
      QueryProcessor.determine_question_type q = "PROCESS") ∧
    (¬ QueryProcessor.matchesPrefixPat QueryProcessor.definitionAlts (lowerStr q) →
      ¬ QueryProcessor.matchesPrefixPat QueryProcessor.factualAlts (lowerStr q) →
      ¬ QueryProcessor.matchesPrefixPat QueryProcessor.processAlts (lowerStr q) →
      QueryProcessor.matchesPrefixPat QueryProcessor.explanationAlts (lowerStr q) →
      QueryProcessor.determine_question_type q = "EXPLANATION") ∧
    (¬ QueryProcessor.matchesPrefixPat QueryProcessor.definitionAlts (lowerStr q) →
      ¬ QueryProcessor.matchesPrefixPat QueryProcessor.factualAlts (lowerStr q) →
      ¬ QueryProcessor.matchesPrefixPat QueryProcessor.processAlts (lowerStr q) →
      ¬ QueryProcessor.matchesPrefixPat QueryProcessor.explanationAlts (lowerStr q) →
      QueryProcessor.matchesPrefixPat QueryProcessor.comparisonAlts (lowerStr q) →
      QueryProcessor.determine_question_type q = "COMPARISON") ∧
    (¬ QueryProcessor.matchesPrefixPat QueryProcessor.definitionAlts (lowerStr q) →
      ¬ QueryProcessor.matchesPrefixPat QueryProcessor.factualAlts (lowerStr q) →
      ¬ QueryProcessor.matchesPrefixPat QueryProcessor.processAlts (lowerStr q) →
      ¬ QueryProcessor.matchesPrefixPat QueryProcessor.explanationAlts (lowerStr q) →
      ¬ QueryProcessor.matchesPrefixPat QueryProcessor.comparisonAlts (lowerStr q) →
      QueryProcessor.determine_question_type q = "EXPLANATION") := by
  refine ⟨?_, ?_, ?_, ?_, ?_, ?_⟩ <;>
    · intros
      simp only [QueryProcessor.determine_question_type, QueryProcessor.questionPatterns,
        List.find?, Bool.not_eq_true] at *
      simp_all

/-- C4 witness: `"how to dance"` misses every DEFINITION pattern but matches the
FACTUAL pattern `"how "`, so the FACTUAL branch of the ordered test fires even
though a PROCESS pattern would also match. -/
theorem determine_question_type_ordered_witness :
    (¬ QueryProcessor.matchesPrefixPat QueryProcessor.definitionAlts (lowerStr "how to dance") ∧
      QueryProcessor.matchesPrefixPat QueryProcessor.factualAlts (lowerStr "how to dance")) ∧
    QueryProcessor.determine_question_type "how to dance" = "FACTUAL" :=
  ⟨⟨by decide, by decide⟩,
   (determine_question_type_ordered "how to dance").2.1 (by decide) (by decide)⟩

/-- C5: `_determine_topic_type` tests the categories in the fixed priority order
TOOL, SCIENCE, GEOGRAPHY, HISTORY; the first category with a keyword occurring as
a substring of the lowercased main topic or of the lowercased content blob wins,
GENERAL is returned when none hits, and the classification is a deterministic
function of the `(content, main_topic)` pair. -/
theorem determine_topic_type_ordered (content main_topic : String) :
    (ContentAnalyzer.hitAny ContentAnalyzer.tool_terms (lowerStr main_topic)
        (lowerStr content) →
      ContentAnalyzer.determine_topic_type content main_topic = "TOOL") ∧
    (¬ ContentAnalyzer.hitAny ContentAnalyzer.tool_terms (lowerStr main_topic)
        (lowerStr content) →
      ContentAnalyzer.hitAny ContentAnalyzer.science_terms (lowerStr main_topic)
        (lowerStr content) →
      ContentAnalyzer.determine_topic_type content main_topic = "SCIENCE") ∧
    (¬ ContentAnalyzer.hitAny ContentAnalyzer.tool_terms (lowerStr main_topic)
        (lowerStr content) →
      ¬ ContentAnalyzer.hitAny ContentAnalyzer.science_terms (lowerStr main_topic)
        (lowerStr content) →
      ContentAnalyzer.hitAny ContentAnalyzer.geo_terms (lowerStr main_topic)
        (lowerStr content) →
      ContentAnalyzer.determine_topic_type content main_topic = "GEOGRAPHY") ∧
    (¬ ContentAnalyzer.hitAny ContentAnalyzer.tool_terms (lowerStr main_topic)
        (lowerStr content) →
      ¬ ContentAnalyzer.hitAny ContentAnalyzer.science_terms (lowerStr main_topic)
        (lowerStr content) →
      ¬ ContentAnalyzer.hitAny ContentAnalyzer.geo_terms (lowerStr main_topic)
        (lowerStr content) →
      ContentAnalyzer.hitAny ContentAnalyzer.history_terms (lowerStr main_topic)
        (lowerStr content) →
      ContentAnalyzer.determine_topic_type content main_topic = "HISTORY") ∧
    (¬ ContentAnalyzer.hitAny ContentAnalyzer.tool_terms (lowerStr main_topic)
        (lowerStr content) →
      ¬ ContentAnalyzer.hitAny ContentAnalyzer.science_terms (lowerStr main_topic)
        (lowerStr content) →
      ¬ ContentAnalyzer.hitAny ContentAnalyzer.geo_terms (lowerStr main_topic)
        (lowerStr content) →
      ¬ ContentAnalyzer.hitAny ContentAnalyzer.history_terms (lowerStr main_topic)
        (lowerStr content) →
      ContentAnalyzer.determine_topic_type content main_topic = "GENERAL") ∧
    (∀ content2 main_topic2, content = content2 → main_topic = main_topic2 →
      ContentAnalyzer.determine_topic_type content main_topic
        = ContentAnalyzer.determine_topic_type content2 main_topic2) := by
  refine ⟨?_, ?_, ?_, ?_, ?_, ?_⟩
  case _ => intro h; simp [ContentAnalyzer.determine_topic_type, h]
  case _ => intro h1 h2
            simp only [Bool.not_eq_true] at h1
            simp [ContentAnalyzer.determine_topic_type, h1, h2]
  case _ => intro h1 h2 h3
            simp only [Bool.not_eq_true] at h1 h2
            simp [ContentAnalyzer.determine_topic_type, h1, h2, h3]
  case _ => intro h1 h2 h3 h4
            simp only [Bool.not_eq_true] at h1 h2 h3
            simp [ContentAnalyzer.determine_topic_type, h1, h2, h3, h4]
  case _ => intro h1 h2 h3 h4
            simp only [Bool.not_eq_true] at h1 h2 h3 h4
            simp [ContentAnalyzer.determine_topic_type, h1, h2, h3, h4]
  case _ => intro c2 t2 hc ht; rw [hc, ht]

/-- C5 witness: for the blob `"the abacus is an ancient tool"` with main topic
`"abacus"`, the TOOL keyword set hits, and the classification is TOOL. -/
theorem determine_topic_type_ordered_witness :
    ContentAnalyzer.hitAny ContentAnalyzer.tool_terms (lowerStr "abacus")
      (lowerStr "the abacus is an ancient tool") = true ∧
    ContentAnalyzer.determine_topic_type "the abacus is an ancient tool" "abacus"
      = "TOOL" :=
  ⟨by decide,
   (determine_topic_type_ordered "the abacus is an ancient tool" "abacus").1 (by decide)⟩

/-- Every entry of a lookup table maps to `d`, so `lookup.getD d` is `d`. -/
theorem lookup_getD_const {α β : Type} [BEq β] (tbl : List (β × α)) (d : α)
    (h : ∀ p ∈ tbl, p.2 = d) (k : β) : ((tbl.lookup k).getD d) = d := by
  induction tbl with
  | nil => rfl
  | cons p rest ih =>
    simp only [List.lookup]
    by_cases hk : (k == p.1) = true
    · simp [hk, h p (by simp)]
    · simp only [hk, Bool.false_eq_true, if_false]
      exact ih fun q hq => h q (List.mem_cons_of_mem _ hq)

/-- C7: `ResponseGenerator.generate` passes the analyzed confidence and sources
through unchanged and renders the selected template filled with the intro and the
main content; when `analyzed_content` is absent or its `main_content` is empty it
returns the canned apology at confidence `0` with no sources, and when the
`confidence` access raises (the modelled internal exception) the `except` branch
returns the canned error apology at confidence `0` with no sources — in every
case a well-formed response is returned, never a propagated exception. -/
theorem generate_contract (ac : ResponseGenerator.AnalyzedContent)
    (pq : QueryProcessor.ProcessedQuery) (c : ℚ) (srcs : List String) :
    (ResponseGenerator.generate none pq = ResponseGenerator.apologyNoInfo) ∧
    (ac.main_content = "" →
      ResponseGenerator.generate (some ac) pq = ResponseGenerator.apologyNoInfo) ∧
    (ac.main_content ≠ "" → ac.confidence = none →
      ResponseGenerator.generate (some ac) pq = ResponseGenerator.apologyError) ∧
    (ac.main_content ≠ "" → ac.confidence = some c → ac.sources = some srcs →
      ResponseGenerator.generate (some ac) pq =
        { response := String.mk (ResponseGenerator.formatTpl
            ("\x7bintro\x7d\n\n\x7bmain_content\x7d").data
            ("Let me explain " ++ pq.cleaned_query ++ ":") ac.main_content),
          confidence := c, sources := srcs }) ∧
    (String.mk (ResponseGenerator.formatTpl
        ("\x7bintro\x7d\n\n\x7bmain_content\x7d").data
        "Let me explain photosynthesis:" "BODY")
      = "Let me explain photosynthesis:\n\nBODY") := by
  have htpl : ∀ k, ((ResponseGenerator.response_templates.lookup k).getD
      "\x7bintro\x7d\n\n\x7bmain_content\x7d") = "\x7bintro\x7d\n\n\x7bmain_content\x7d" := by
    intro k
    refine lookup_getD_const _ _ ?_ k
    intro p hp
    fin_cases hp <;> rfl
  refine ⟨rfl, ?_, ?_, ?_, by decide⟩
  · intro h; simp [ResponseGenerator.generate, h]
  · intro h hc; simp [ResponseGenerator.generate, h, hc]
  · intro h hc hs
    simp [ResponseGenerator.generate, h, hc, hs, htpl pq.question_type]

/-- C7 witness: a concrete analyzed record with non-empty content, confidence
`7/10` and one source is passed through unchanged by `generate`, and the rendered
text is the filled template. -/
theorem generate_contract_witness :
    ("photosynthesis is a process" ≠ "" ∧
      (ResponseGenerator.AnalyzedContent.mk "photosynthesis is a process"
          (some (7 / 10)) (some ["Photosynthesis - u"])).confidence = some (7 / 10)) ∧
    ResponseGenerator.generate
        (some (ResponseGenerator.AnalyzedContent.mk "photosynthesis is a process"
          (some (7 / 10)) (some ["Photosynthesis - u"])))
        (QueryProcessor.process [] (fun _ => []) "what is photosynthesis?")
      = { response := String.mk (ResponseGenerator.formatTpl
            ("\x7bintro\x7d\n\n\x7bmain_content\x7d").data
            ("Let me explain "
              ++ (QueryProcessor.process [] (fun _ => []) "what is photosynthesis?").cleaned_query
              ++ ":") "photosynthesis is a process"),
          confidence := 7 / 10, sources := ["Photosynthesis - u"] } :=
  ⟨⟨by decide, rfl⟩,
   (generate_contract
      (ResponseGenerator.AnalyzedContent.mk "photosynthesis is a process"
        (some (7 / 10)) (some ["Photosynthesis - u"]))
      (QueryProcessor.process [] (fun _ => []) "what is photosynthesis?")
      (7 / 10) ["Photosynthesis - u"]).2.2.2.1 (by decide) rfl rfl⟩

/-- The entity loop keeps exactly the tagged words passing the noun/stopword/length
test, in order. -/
theorem extractLoop_eq_filter (stop : List String) (l : List (String × String)) :
    QueryProcessor.extractLoop stop l
      = (l.filter fun wt => isPref "NN".data wt.2.data && !stop.contains wt.1
          && decide (wt.1.length > 2)).map Prod.fst := by
  induction l with
  | nil => rfl
  | cons wt rest ih =>
    obtain ⟨w, t⟩ := wt
    simp only [QueryProcessor.extractLoop, List.filter_cons]
    split <;> simp [ih]

/-- C8: entity extraction keeps exactly the tagged tokens whose POS tag is a noun
category (`NN*`), whose form is not a stopword, and whose length exceeds 2,
preserving appearance order and duplicates (the output is an order-preserving
sublist of the token sequence); on `"the cat sat on the cat mat"` with nouns
`cat, cat, mat` it yields exactly `[cat, cat, mat]`. -/
theorem extract_entities_spec (stop_words : List String)
    (tagger : String → List (String × String)) (q : String) :
    (QueryProcessor.extract_entities stop_words tagger q).Sublist
        ((tagger (lowerStr q)).map Prod.fst) ∧
    QueryProcessor.extract_entities stop_words tagger q
      = ((tagger (lowerStr q)).filter fun wt =>
          isPref "NN".data wt.2.data && !stop_words.contains wt.1
            && decide (wt.1.length > 2)).map Prod.fst ∧
    QueryProcessor.extract_entities stopEx tagEx "the cat sat on the cat mat"
      = ["cat", "cat", "mat"] := by
  refine ⟨?_, ?_, by decide⟩
  · rw [QueryProcessor.extract_entities, extractLoop_eq_filter]
    exact (List.filter_sublist _).map _
  · rw [QueryProcessor.extract_entities, extractLoop_eq_filter]

/-- `_determine_question_type` always answers one of the five enum members. -/
theorem determine_question_type_mem (q : String) :
    QueryProcessor.determine_question_type q ∈
      ["DEFINITION", "FACTUAL", "PROCESS", "EXPLANATION", "COMPARISON"] := by
  unfold QueryProcessor.determine_question_type
  cases hf : QueryProcessor.questionPatterns.find?
      (fun p => QueryProcessor.matchesPrefixPat p.2 (lowerStr q)) with
  | none => simp [hf]
  | some p =>
    have hp := List.mem_of_find?_eq_some hf
    simp only [hf]
    fin_cases hp <;> simp

/-- For each of the five enum members, the phrasing generator produces exactly 5
variants. -/
theorem phrasings_length (q qt : String)
    (h : qt ∈ ["DEFINITION", "FACTUAL", "PROCESS", "EXPLANATION", "COMPARISON"]) :
    (QueryProcessor.generate_alternative_phrasings q qt).length = 5 := by
  fin_cases h <;> simp [QueryProcessor.generate_alternative_phrasings]

/-- C9: for every non-empty query, `QueryProcessor.process` returns a
`question_type` from the fixed five-member enum and exactly 5 alternative
phrasings. -/
theorem process_question_type_and_phrasings (stop_words : List String)
    (tagger : String → List (String × String)) (q : String) (_hq : q ≠ "") :
    (QueryProcessor.process stop_words tagger q).question_type ∈
      ["DEFINITION", "FACTUAL", "PROCESS", "EXPLANATION", "COMPARISON"] ∧
    (QueryProcessor.process stop_words tagger q).alternative_phrasings.length = 5 := by
  constructor
  · simpa [QueryProcessor.process] using
      determine_question_type_mem (trimStr (lowerStr q))
  · simp only [QueryProcessor.process]
    exact phrasings_length _ _ (determine_question_type_mem _)

/-- C9 witness: the non-empty query `"what is a cat"` is classified into the enum
and receives exactly 5 alternative phrasings. -/
theorem process_question_type_and_phrasings_witness :
    ("what is a cat" ≠ "") ∧
    (QueryProcessor.process stopEx tagEx "what is a cat").question_type ∈
      ["DEFINITION", "FACTUAL", "PROCESS", "EXPLANATION", "COMPARISON"] ∧
    (QueryProcessor.process stopEx tagEx "what is a cat").alternative_phrasings.length
      = 5 :=
  ⟨by decide, process_question_type_and_phrasings stopEx tagEx "what is a cat" (by decide)⟩

/-- When the similarity engine answers with a nonnegative similarity, the
`0.3 · term_boost` component alone lifts `_calculate_relevance` to `0.3`. -/
theorem relevance_floor_aux (sim : String → List String → Option (List ℚ))
    (content query : String) (sims : List ℚ)
    (hs : sim (cleanWs query) [cleanWs content] = some sims)
    (hnn : 0 ≤ sims.headD 0) :
    3 / 10 ≤ WikipediaSearch.calculate_relevance sim content query := by
  unfold WikipediaSearch.calculate_relevance
  simp only [hs]
  have htm : (0 : ℚ) ≤
      (((pyWords (lowerStr (cleanWs query))).dedup.countP
        (fun t => strContains (lowerStr (cleanWs content)) t) : ℕ) : ℚ) :=
    Nat.cast_nonneg _
  refine le_min (by norm_num) ?_
  have h1 : (0 : ℚ) ≤ sims.headD 0 * (2 / 5) := mul_nonneg hnn (by norm_num)
  have h2 : (0 : ℚ) ≤ min 1 (((wordCount (cleanWs content) : ℕ) : ℚ) / 200) * (3 / 10) := by
    refine mul_nonneg (le_min (by norm_num) (by positivity)) (by norm_num)
  have h3 : (3 : ℚ) / 10 ≤
      (1 + (((pyWords (lowerStr (cleanWs query))).dedup.countP
        (fun t => strContains (lowerStr (cleanWs content)) t) : ℕ) : ℚ) * (1 / 5)) * (3 / 10) := by
    nlinarith
  linarith

/-- The `except` fallback of `_calculate_relevance` scores `0.0`. -/
theorem relevance_none_aux (sim : String → List String → Option (List ℚ))
    (content query : String) (h : sim (cleanWs query) [cleanWs content] = none) :
    WikipediaSearch.calculate_relevance sim content query = 0 := by
  unfold WikipediaSearch.calculate_relevance
  simp [h]

/-- C10: when the similarity engine answers (no exception) with a nonnegative
cosine similarity, `_calculate_relevance` scores at least `0.3`, because the
`0.3 · term_boost` component alone reaches the threshold; when the engine raises,
the fallback score is `0.0`.  Consequently, under a nonnegative engine the
`score ≥ 0.3` survival filter can only exclude a candidate whose scoring raised
and was assigned `0.0`. -/
theorem calculate_relevance_floor (sim : String → List String → Option (List ℚ))
    (content query : String) :
    (∀ sims, sim (cleanWs query) [cleanWs content] = some sims →
      0 ≤ sims.headD 0 →
      3 / 10 ≤ WikipediaSearch.calculate_relevance sim content query) ∧
    (sim (cleanWs query) [cleanWs content] = none →
      WikipediaSearch.calculate_relevance sim content query = 0) ∧
    ((∀ sims, sim (cleanWs query) [cleanWs content] = some sims → 0 ≤ sims.headD 0) →
      WikipediaSearch.calculate_relevance sim content query < 3 / 10 →
      sim (cleanWs query) [cleanWs content] = none ∧
      WikipediaSearch.calculate_relevance sim content query = 0) := by
  refine ⟨fun sims hs hnn => relevance_floor_aux sim content query sims hs hnn,
    relevance_none_aux sim content query, ?_⟩
  intro hnn hlt
  cases hcase : sim (cleanWs query) [cleanWs content] with
  | none => exact ⟨rfl, relevance_none_aux sim content query hcase⟩
  | some sims =>
    exact absurd hlt
      (not_lt.mpr (relevance_floor_aux sim content query sims hcase (hnn sims hcase)))

/-- C10 witness: a well-behaved engine scoring `0` on the document `"a b"` and
query `"c"` yields a relevance of at least `0.3`. -/
theorem calculate_relevance_floor_witness :
    simZero (cleanWs "c") [cleanWs "a b"] = some [0] ∧
    (0 : ℚ) ≤ ([0] : List ℚ).headD 0 ∧
    3 / 10 ≤ WikipediaSearch.calculate_relevance simZero "a b" "c" :=
  ⟨by decide, by decide,
   (calculate_relevance_floor simZero "a b" "c").1 [0] (by decide) (by decide)⟩

/-- `_calculate_relevance` never exceeds `1`: the final score is `min(1.0, ·)` and
the exception fallback is `0.0`. -/
theorem calculate_relevance_le_one (sim : String → List String → Option (List ℚ))
    (content query : String) :
    WikipediaSearch.calculate_relevance sim content query ≤ 1 := by
  unfold WikipediaSearch.calculate_relevance
  cases h : sim (cleanWs query) [cleanWs content] with
  | none => simp [h]
  | some sims => simp only [h]; exact min_le_left _ _

/-- C1: every passage returned by `_process_results` has a confidence score in
`[0, 1]` that is at least `0.3`, and the output is sorted in descending order of
score; this holds for every similarity engine, candidate list and query. -/
theorem process_results_bounds_sorted (sim : String → List String → Option (List ℚ))
    (results : List WikipediaSearch.FetchedPage) (original_query : String) :
    (∀ p ∈ WikipediaSearch.process_results sim results original_query,
      0 ≤ p.confidence ∧ p.confidence ≤ 1 ∧ 3 / 10 ≤ p.confidence) ∧
    List.Sorted WikipediaSearch.confDesc
      (WikipediaSearch.process_results sim results original_query) := by
  constructor
  · intro p hp
    unfold WikipediaSearch.process_results at hp
    have hp2 := ((List.perm_insertionSort WikipediaSearch.confDesc _).mem_iff).mp hp
    rw [List.mem_filterMap] at hp2
    obtain ⟨r, _hr, heq⟩ := hp2
    by_cases hrel : 3 / 10 ≤ WikipediaSearch.calculate_relevance sim r.content original_query
    · rw [if_pos hrel, Option.some.injEq] at heq
      subst heq
      exact ⟨le_trans (by norm_num) hrel, calculate_relevance_le_one _ _ _, hrel⟩
    · rw [if_neg hrel] at heq
      exact absurd heq (by simp)
  · exact List.sorted_insertionSort _ _

/-- C1 witness: on a concrete page scored by the zero engine, the single returned
passage has confidence in `[0.3, 1]`. -/
theorem process_results_bounds_sorted_witness :
    pageAScored ∈ WikipediaSearch.process_results simZero [pageA] "q" ∧
    (0 ≤ pageAScored.confidence ∧ pageAScored.confidence ≤ 1 ∧
      3 / 10 ≤ pageAScored.confidence) := by
  have hrel : 3 / 10 ≤ WikipediaSearch.calculate_relevance simZero "alpha beta." "q" :=
    relevance_floor_aux simZero "alpha beta." "q" [0] (by decide) (by decide)
  have hproc : WikipediaSearch.process_results simZero [pageA] "q" = [pageAScored] := by
    unfold WikipediaSearch.process_results
    simp only [pageA, List.filterMap_cons, List.filterMap_nil]
    rw [if_pos hrel]
    simp [List.insertionSort, List.orderedInsert, pageAScored]
  have hmem : pageAScored ∈ WikipediaSearch.process_results simZero [pageA] "q" := by
    rw [hproc]; exact List.mem_singleton_self _
  exact ⟨hmem, (process_results_bounds_sorted simZero [pageA] "q").1 _ hmem⟩

/-- The `seen`-set loop of `_deduplicate_and_sort` returns an order-preserving
sublist of its input. -/
theorem dedupeLoop_sublist (l : List WikipediaSearch.SearchResult) :
    ∀ seen, (WikipediaSearch.dedupeLoop l seen).Sublist l := by
  induction l with
  | nil => intro seen; simp [WikipediaSearch.dedupeLoop]
  | cons r rest ih =>
    intro seen
    unfold WikipediaSearch.dedupeLoop
    by_cases h : r.title ∈ seen
    · rw [if_pos h]; exact (ih seen).cons r
    · rw [if_neg h]; exact (ih (r.title :: seen)).cons₂ r

/-- The titles surviving the `seen`-set loop are pairwise distinct and avoid the
initial `seen` set. -/
theorem dedupeLoop_titles (l : List WikipediaSearch.SearchResult) :
    ∀ seen, ((WikipediaSearch.dedupeLoop l seen).map
        WikipediaSearch.SearchResult.title).Nodup ∧
      (∀ t ∈ (WikipediaSearch.dedupeLoop l seen).map
        WikipediaSearch.SearchResult.title, t ∉ seen) := by
  induction l with
  | nil => intro seen; simp [WikipediaSearch.dedupeLoop]
  | cons r rest ih =>
    intro seen
    unfold WikipediaSearch.dedupeLoop
    by_cases h : r.title ∈ seen
    · rw [if_pos h]; exact ih seen
    · rw [if_neg h]
      obtain ⟨ihn, ihs⟩ := ih (r.title :: seen)
      constructor
      · simp only [List.map_cons, List.nodup_cons]
        exact ⟨fun hmem => (ihs _ hmem) (List.mem_cons_self _ _), ihn⟩
      · intro t ht
        simp only [List.map_cons, List.mem_cons] at ht
        rcases ht with rfl | ht
        · exact h
        · exact fun hts => (ihs t ht) (List.mem_cons_of_mem _ hts)

/-- C2: the retrieval stage sorts the collected candidates in descending order of
`seed_relevance`, deduplicates by title keeping the first occurrence in that
sorted order, and truncates to at most 3 — the output is descending, title-nodup,
of length at most 3, drawn from the input; and the input
`[(A, 0.9), (A, 0.7), (B, 0.95)]` yields exactly `[(B, 0.95), (A, 0.9)]`. -/
theorem select_candidates_spec (collected : List WikipediaSearch.SearchResult) :
    (WikipediaSearch.selectCandidates collected).length ≤ 3 ∧
    List.Sorted WikipediaSearch.relDesc (WikipediaSearch.selectCandidates collected) ∧
    ((WikipediaSearch.selectCandidates collected).map
      WikipediaSearch.SearchResult.title).Nodup ∧
    (∀ r ∈ WikipediaSearch.selectCandidates collected, r ∈ collected) ∧
    WikipediaSearch.selectCandidates
        [⟨"A", 1, 9 / 10⟩, ⟨"A", 2, 7 / 10⟩, ⟨"B", 3, 19 / 20⟩]
      = [⟨"B", 3, 19 / 20⟩, ⟨"A", 1, 9 / 10⟩] := by
  have hsub : (WikipediaSearch.selectCandidates collected).Sublist
      (WikipediaSearch.sortByRelevance collected) :=
    (List.take_sublist _ _).trans (dedupeLoop_sublist _ [])
  refine ⟨?_, ?_, ?_, ?_, ?_⟩
  · exact List.length_take_le _ _
  · exact List.Pairwise.sublist hsub (List.sorted_insertionSort _ _)
  · exact List.Nodup.sublist (List.Sublist.map _ (List.take_sublist _ _))
      (dedupeLoop_titles _ []).1
  · intro r hr
    exact ((List.perm_insertionSort WikipediaSearch.relDesc _).mem_iff).mp
      (hsub.subset hr)
  · norm_num [WikipediaSearch.selectCandidates, WikipediaSearch.deduplicate_and_sort,
      WikipediaSearch.sortByRelevance, WikipediaSearch.dedupeLoop,
      List.insertionSort, List.orderedInsert, WikipediaSearch.relDesc]
    simp

/-- C2 witness: on the concrete candidate list of the claim, the first selected
candidate `(B, 0.95)` is indeed drawn from the input. -/
theorem select_candidates_spec_witness :
    (⟨"B", 3, 19 / 20⟩ : WikipediaSearch.SearchResult) ∈
      WikipediaSearch.selectCandidates
        [⟨"A", 1, 9 / 10⟩, ⟨"A", 2, 7 / 10⟩, ⟨"B", 3, 19 / 20⟩] ∧
    (⟨"B", 3, 19 / 20⟩ : WikipediaSearch.SearchResult) ∈
      ([⟨"A", 1, 9 / 10⟩, ⟨"A", 2, 7 / 10⟩, ⟨"B", 3, 19 / 20⟩] :
        List WikipediaSearch.SearchResult) := by
  have hmem : (⟨"B", 3, 19 / 20⟩ : WikipediaSearch.SearchResult) ∈
      WikipediaSearch.selectCandidates
        [⟨"A", 1, 9 / 10⟩, ⟨"A", 2, 7 / 10⟩, ⟨"B", 3, 19 / 20⟩] := by
    norm_num [WikipediaSearch.selectCandidates, WikipediaSearch.deduplicate_and_sort,
      WikipediaSearch.sortByRelevance, WikipediaSearch.dedupeLoop,
      List.insertionSort, List.orderedInsert, WikipediaSearch.relDesc]
  exact ⟨hmem,
    (select_candidates_spec
      [⟨"A", 1, 9 / 10⟩, ⟨"A", 2, 7 / 10⟩, ⟨"B", 3, 19 / 20⟩]).2.2.2.1
      ⟨"B", 3, 19 / 20⟩ hmem⟩

/-- C6 counterexample: for the content `"one two three"`, the combined word count
of the top-3 ranked paragraphs is 3 (< 100) — the claim's trigger holds — yet no
sentence reaches 6 words, so `_extract_relevant_content` returns the paragraph
join `"one two three"` and not the sentence-level join (which on this input would
be `sentenceJoin` of the top 5 of the empty sentence list, i.e. `"."`): the
fallback is skipped, refuting the claim that it fires whenever the word count is
under 100. -/
theorem extract_fallback_counterexample :
    ((WikipediaSearch.rankTop 3 [0]
        (WikipediaSearch.paragraphsOf "one two three")).map wordCount).sum < 100 ∧
    simZero "q" (WikipediaSearch.paragraphsOf "one two three") = some [0] ∧
    WikipediaSearch.sentencesOf "one two three" = [] ∧
    WikipediaSearch.extract_relevant_content simZero "one two three" "q"
      = "one two three" ∧
    WikipediaSearch.extract_relevant_content simZero "one two three" "q"
      ≠ WikipediaSearch.sentenceJoin
          (WikipediaSearch.rankTop 5 []
            (WikipediaSearch.sentencesOf "one two three")) := by
  refine ⟨by decide, by decide, by decide, by decide, by decide⟩

/-- C6 (amended): whenever the combined word count of the top-3 ranked paragraphs
is under 100 and at least one sentence of at least 6 words exists, the ranker
falls back to sentence-level extraction — terminal-punctuation split, minimum 6
words, top 5 by the same similarity ranking, joined with `". "` plus a trailing
period; when no sentence qualifies, the top-3 paragraph join is returned
instead. -/
theorem extract_fallback_amended (sim : String → List String → Option (List ℚ))
    (content query : String) (sims : List ℚ)
    (hp : (WikipediaSearch.paragraphsOf content).isEmpty = false)
    (hs : sim query (WikipediaSearch.paragraphsOf content) = some sims)
    (hw : ((WikipediaSearch.rankTop 3 sims
      (WikipediaSearch.paragraphsOf content)).map wordCount).sum < 100) :
    ((WikipediaSearch.sentencesOf content).isEmpty = false →
      ∀ ssims, sim query (WikipediaSearch.sentencesOf content) = some ssims →
        WikipediaSearch.extract_relevant_content sim content query
          = WikipediaSearch.sentenceJoin
              (WikipediaSearch.rankTop 5 ssims (WikipediaSearch.sentencesOf content))) ∧
    ((WikipediaSearch.sentencesOf content).isEmpty = true →
      WikipediaSearch.extract_relevant_content sim content query
        = WikipediaSearch.paragraphJoin
            (WikipediaSearch.rankTop 3 sims (WikipediaSearch.paragraphsOf content))) := by
  constructor
  · intro hne ssims hss
    unfold WikipediaSearch.extract_relevant_content
    simp only [hp, hs, Bool.false_eq_true, if_false, if_pos hw, hne, hss]
  · intro hne
    unfold WikipediaSearch.extract_relevant_content
    simp only [hp, hs, Bool.false_eq_true, if_false, if_pos hw, hne, if_true]

/-- C6 witness: the 7-word single-sentence article `sentW` has a top-3 paragraph
word count of 7 (< 100) and one qualifying sentence, so the sentence-level
fallback fires. -/
theorem extract_fallback_amended_witness :
    ((WikipediaSearch.paragraphsOf sentW).isEmpty = false ∧
      simZero "q" (WikipediaSearch.paragraphsOf sentW) = some [0] ∧
      ((WikipediaSearch.rankTop 3 [0]
        (WikipediaSearch.paragraphsOf sentW)).map wordCount).sum < 100 ∧
      (WikipediaSearch.sentencesOf sentW).isEmpty = false ∧
      simZero "q" (WikipediaSearch.sentencesOf sentW) = some [0]) ∧
    WikipediaSearch.extract_relevant_content simZero sentW "q"
      = WikipediaSearch.sentenceJoin
          (WikipediaSearch.rankTop 5 [0] (WikipediaSearch.sentencesOf sentW)) :=
  ⟨⟨by decide, by decide, by decide, by decide, by decide⟩,
   (extract_fallback_amended simZero sentW "q" [0] (by decide) (by decide)
      (by decide)).1 (by decide) [0] (by decide)⟩

end WikiBot
